import Mathlib

/-!
Verification of `makeboard.py`, a KiCad pcbnew script that exports the copper
geometry of one board layer as a filled-polygon SVG.

The script is a thin orchestration layer over the host CAD application
(`pcbnew`): it resolves a layer by name, filters board items onto that layer,
converts each item to a polygon set through host calls, accumulates the results
with a boolean union, computes bounds, and serializes the loops as SVG paths.

The shallow embedding below models the host objects (board, items, polygon
sets, chains) as explicit data.  Duck-typed capability probing
(`hasattr(obj, "M")`) is modelled by `Option`-valued fields: `none` means the
attribute is absent; a host call that may raise a Python exception is modelled
by an `Option` result, `none` meaning the call raised.  A raised exception that
propagates is modelled by `Except String`, carrying the error text (for the
script's own `RuntimeError`s, the exact message from the source).  Python
floats are idealized as exact rationals (`ℚ`); KiCad internal units (integer
nanometres) are `Int`, with 1 mm = 10^6 internal units.  Python string
helpers that the script uses (`str.join`, `str.upper`, `str.replace`,
`os.path.splitext`, the `in` substring test, `"%.4f"`-style formatting) are
embedded as executable Lean functions.
-/

/-- Embedding of Python `sep.join(parts)`. -/
def py_join (sep : String) : List String → String
  | [] => ""
  | [a] => a
  | a :: b :: rest => a ++ sep ++ py_join sep (b :: rest)

/-- Embedding of Python `s.upper()` (ASCII case mapping suffices here). -/
def py_upper (s : String) : String :=
  String.mk (s.toList.map Char.toUpper)

/-- Embedding of Python `s.replace(a, b)` for single-character patterns
(the script only uses `LAYER_NAME.replace('.', '_')`). -/
def py_replace (s : String) (a b : Char) : String :=
  String.mk (s.toList.map (fun c => if c = a then b else c))

/-- Helper for the substring test: is the first list a pre fix of the second? -/
def list_starts : List Char → List Char → Bool
  | [], _ => true
  | _ :: _, [] => false
  | a :: as, b :: bs => a == b && list_starts as bs

/-- Helper for the substring test: does the needle occur contiguously in the hay? -/
def list_substr (needle : List Char) : List Char → Bool
  | [] => needle.isEmpty
  | c :: rest => list_starts needle (c :: rest) || list_substr needle rest

/-- Embedding of the Python substring test `needle in hay`. -/
def str_contains (hay needle : String) : Bool :=
  list_substr needle.toList hay.toList

/-- Embedding of Python `s.rfind(c)`: index of the last occurrence, `-1` if absent. -/
def last_index_of (cs : List Char) (c : Char) : Int :=
  cs.enum.foldl (fun acc pr => if pr.2 = c then (pr.1 : Int) else acc) (-1)

/-- Embedding of `os.path.splitext(p)[0]` (POSIX separator): drop the extension
starting at the last dot of the final path component, unless every character of
the component before that dot is itself a dot. -/
def splitext_root (p : String) : String :=
  let cs := p.toList
  let sepIndex := last_index_of cs '/'
  let dotIndex := last_index_of cs '.'
  if dotIndex > sepIndex then
    if (List.range cs.length).any (fun i =>
        decide (sepIndex < (i : Int)) && decide ((i : Int) < dotIndex) &&
          (cs.getD i '.' != '.'))
    then String.mk (cs.take dotIndex.toNat)
    else p
  else p

/-- Left-pad a natural number to four decimal digits (the fraction part of a
`%.4f` format). -/
def pad4 (n : Nat) : String :=
  let s := toString n
  String.mk (List.replicate (4 - s.length) '0') ++ s

/-- Embedding of the Python format `f"\x7bv:.4f\x7d"`: fixed four-decimal
formatting, idealized as exact decimal rounding of the rational value. -/
def fmt4 (q : ℚ) : String :=
  let n : Int := round (q * 10000)
  let sign := if n < 0 then "-" else ""
  sign ++ toString (n.natAbs / 10000) ++ "." ++ pad4 (n.natAbs % 10000)

/-- A 2-D point in KiCad internal units (`pcbnew.VECTOR2I`, integer nanometres). -/
structure IUPoint where
  x : Int
  y : Int
deriving DecidableEq

/-- `pcbnew.FromMM`: millimetres to internal units, rounded. -/
def iu_from_mm (mm : ℚ) : Int :=
  round (mm * 1000000)

/-- `pcbnew.ToMM`: internal units to millimetres. -/
def mm_from_iu (iu : Int) : ℚ :=
  (iu : ℚ) / 1000000

/-- One closed loop (`SHAPE_LINE_CHAIN`) of a polygon set as seen from Python.
`indexed` is `some pts` when the object has both `PointCount` and `CPoint`
(yielding `pts`); `iterPts` is the point sequence the fallback Python iterator
yields before completing or raising (an object that is not iterable yields
nothing, i.e. `[]`). -/
structure Chain where
  indexed : Option (List IUPoint)
  iterPts : List IUPoint
deriving DecidableEq

/-- A host polygon set (`SHAPE_POLY_SET`) as seen from Python.
`hasPolygonAPI` models `hasattr` of both `PolygonCount` and `Outline`;
`hasHoleAPI` models `hasattr` of both `HoleCount` and `Hole`;
`hasOutlineAPI` models `hasattr` of both `OutlineCount` and `Outline`.
`polygons` is the polygon list, each an outer outline paired with its holes in
hole-index order; `outlines` is what the outline-only fallback iteration sees. -/
structure PolySet where
  hasPolygonAPI : Bool
  hasHoleAPI : Bool
  polygons : List (Chain × List Chain)
  hasOutlineAPI : Bool
  outlines : List Chain
deriving DecidableEq

/-- The fresh `pcbnew.SHAPE_POLY_SET()` the script allocates: a real KiCad
object exposing the full polygon API and containing no polygons. -/
def empty_polyset : PolySet :=
  { hasPolygonAPI := true, hasHoleAPI := true, polygons := [],
    hasOutlineAPI := true, outlines := [] }

/-- A board item (track, via, drawing, pad or zone) as probed by the script.
Each field models one host capability: the outer `Option` is `hasattr`,
an inner `none` result means the call raised.
`transformFn1`, `transformFn2`, `transformFn3` are the three
`TransformShapeToPolygon` signatures tried in order (argument: `max_error_iu`);
`layerSetContainsFn` is the pads-only `GetLayerSet().Contains(lid)` chain;
`solidAreasFn1`, `solidAreasFn2` are the two zone-only
`TransformSolidAreas*` method names tried in order. -/
structure Item where
  isOnLayerFn : Option (Int → Option Bool)
  getLayerFn : Option (Option Int)
  getClassFn : Option String
  layerSetContainsFn : Int → Option Bool
  transformFn1 : Int → Option PolySet
  transformFn2 : Int → Option PolySet
  transformFn3 : Int → Option PolySet
  solidAreasFn1 : Option (Int → Option PolySet)
  solidAreasFn2 : Option (Int → Option PolySet)

/-- A footprint: the script only iterates its pads. -/
structure Footprint where
  pads : List Item

/-- The host board object, as used by the script.  `getLayerIDFn name = none`
means `board.GetLayerID(name)` raised; `fileName = ""` models a board that was
never saved (`GetFileName` returning a falsy path). -/
structure Board where
  getLayerIDFn : String → Option Int
  getLayerNameFn : Nat → String
  tracks : List Item
  drawings : List Item
  footprints : List Footprint
  zones : List Item
  fileName : String

/-- Host-level state that is not per-item: the `pcbnew.PCB_LAYER_ID_COUNT`
constant, and the boolean-add capability of `SHAPE_POLY_SET`:
`hasUnionMethod` models `hasattr` of some name among `BooleanAdd`,
`BooleanAddTo`, `Add`, `Append`; `union dst src = none` means the first such
method raised when called. -/
structure Host where
  layerIdCount : Nat
  hasUnionMethod : Bool
  union : PolySet → PolySet → Option PolySet

/-- The USER SETTINGS block of the script, as explicit configuration. -/
structure Config where
  layer_name : String
  include_zones : Bool
  max_error_mm : ℚ
  margin_mm : ℚ
  fill_color : String
  out_suffix : String

/-- The constant values set in the source file. -/
def default_config : Config :=
  { layer_name := "F.Cu", include_zones := false, max_error_mm := 0.02,
    margin_mm := 1, fill_color := "#000000", out_suffix := "_laser.svg" }

/-- The observable effect of a successful run: the output path and the full
text written to it. -/
structure MainResult where
  out_path : String
  content : String
deriving DecidableEq

/-- `get_layer_id`: direct `board.GetLayerID(name)` first; if that raises,
linearly scan `range(pcbnew.PCB_LAYER_ID_COUNT)` comparing `GetLayerName`;
raise `RuntimeError` if no slot matches. -/
def get_layer_id (host : Host) (board : Board) (name : String) : Except String Int :=
  match board.getLayerIDFn name with
  | some lid => .ok lid
  | none =>
    match (List.range host.layerIdCount).find?
        (fun lid => board.getLayerNameFn lid == name) with
    | some lid => .ok (Int.ofNat lid)
    | none => .error ("Could not find layer '" ++ name ++ "'")

/-- `poly_boolean_add`: call the first existing method among `BooleanAdd`,
`BooleanAddTo`, `Add`, `Append` on `dst`; if none exists raise `RuntimeError`;
if the call itself raises, that exception propagates.  The Python mutates
`dst` in place; the embedding returns the new accumulator value. -/
def poly_boolean_add (host : Host) (dst src : PolySet) : Except String PolySet :=
  if host.hasUnionMethod then
    match host.union dst src with
    | some r => .ok r
    | none => .error "boolean-add method raised"
  else
    .error "Could not boolean-add polygon sets (KiCad API mismatch)."

/-- Third probe of `item_on_layer`: `item.GetClass()` and test whether the
upper-cased class name contains `"VIA"`; any exception yields `False`. -/
def via_check (item : Item) : Bool :=
  match item.getClassFn with
  | some cls => str_contains (py_upper cls) "VIA"
  | none => false

/-- Second probe of `item_on_layer`: `int(item.GetLayer()) == int(lid)` when
the attribute exists and the call answers; absence or an exception falls
through to the via probe. -/
def layer_attr_check (item : Item) (lid : Int) : Bool :=
  match item.getLayerFn with
  | some (some l) => l == lid
  | some none => via_check item
  | none => via_check item

/-- `item_on_layer`: first `item.IsOnLayer(lid)` when the attribute exists and
the call answers; absence or an exception falls through to `GetLayer`, then to
the via probe, and finally to `False`. -/
def item_on_layer (item : Item) (lid : Int) : Bool :=
  match item.isOnLayerFn with
  | some f =>
    match f lid with
    | some b => b
    | none => layer_attr_check item lid
  | none => layer_attr_check item lid

/-- `transform_to_polyset`: try the three `TransformShapeToPolygon` call
signatures in order, returning the polygon set of the first that succeeds;
return `None` when all three raise. -/
def transform_to_polyset (item : Item) (max_error_iu : Int) : Option PolySet :=
  match item.transformFn1 max_error_iu with
  | some ps => some ps
  | none =>
    match item.transformFn2 max_error_iu with
    | some ps => some ps
    | none =>
      match item.transformFn3 max_error_iu with
      | some ps => some ps
      | none => none

/-- Second half of `zone_to_polyset`: the second solid-areas method name, then
the generic fallback `transform_to_polyset`. -/
def zone_solid_snd (zone : Item) (max_error_iu : Int) : Option PolySet :=
  match zone.solidAreasFn2 with
  | some f =>
    match f max_error_iu with
    | some ps => some ps
    | none => transform_to_polyset zone max_error_iu
  | none => transform_to_polyset zone max_error_iu

/-- `zone_to_polyset`: prefer `TransformSolidAreasToPolygon`, then
`TransformSolidAreasShapesToPolygon`, then fall back to the generic converter. -/
def zone_to_polyset (zone : Item) (max_error_iu : Int) : Option PolySet :=
  match zone.solidAreasFn1 with
  | some f =>
    match f max_error_iu with
    | some ps => some ps
    | none => zone_solid_snd zone max_error_iu
  | none => zone_solid_snd zone max_error_iu

/-- `iter_polyset_loops`: with the polygon-aware API, yield each polygon's
outer outline followed by that polygon's holes in hole-index order (holes only
when the hole API exists); otherwise fall back to outline-only iteration;
otherwise raise `RuntimeError`. -/
def iter_polyset_loops (ps : PolySet) : Except String (List Chain) :=
  if ps.hasPolygonAPI then
    .ok (ps.polygons.flatMap (fun pg => pg.1 :: (if ps.hasHoleAPI then pg.2 else [])))
  else if ps.hasOutlineAPI then
    .ok ps.outlines
  else
    .error "Could not iterate polygon loops (KiCad API mismatch)."

/-- `chain_to_points_mm`: indexed access via `PointCount`/`CPoint` when both
exist, else whatever the fallback iterator yields (possibly nothing); each
point converted to millimetres and shifted by `(dx_mm, dy_mm)`.  The Python
returns the accumulated list in every case and never raises. -/
def chain_to_points_mm (chain : Chain) (dx_mm dy_mm : ℚ) : List (ℚ × ℚ) :=
  match chain.indexed with
  | some pts => pts.map (fun p => (mm_from_iu p.x + dx_mm, mm_from_iu p.y + dy_mm))
  | none => chain.iterPts.map (fun p => (mm_from_iu p.x + dx_mm, mm_from_iu p.y + dy_mm))

/-- All points of a polygon set in millimetres with no shift, in loop order:
the flattening that `polyset_bounds_mm` iterates over. -/
def polyset_points_mm (ps : PolySet) : Except String (List (ℚ × ℚ)) :=
  (iter_polyset_loops ps).map (fun chains => chains.flatMap (fun c => chain_to_points_mm c 0 0))

/-- Running extrema of `polyset_bounds_mm`. -/
structure Bounds where
  minx : ℚ
  miny : ℚ
  maxx : ℚ
  maxy : ℚ
deriving DecidableEq

/-- One update step of the bounds scan, exactly the four `if` comparisons of
the source. -/
def bounds_update (b : Bounds) (p : ℚ × ℚ) : Bounds :=
  { minx := if p.1 < b.minx then p.1 else b.minx
    miny := if p.2 < b.miny then p.2 else b.miny
    maxx := if p.1 > b.maxx then p.1 else b.maxx
    maxy := if p.2 > b.maxy then p.2 else b.maxy }

/-- The sentinel start values `1e18` / `-1e18` of the source. -/
def bounds_init : Bounds :=
  { minx := 1000000000000000000, miny := 1000000000000000000,
    maxx := -1000000000000000000, maxy := -1000000000000000000 }

/-- `polyset_bounds_mm`: scan every point of every loop; raise
`RuntimeError` when the minimum stayed above the `1e17` sentinel threshold
(empty set). -/
def polyset_bounds_mm (ps : PolySet) : Except String Bounds :=
  match polyset_points_mm ps with
  | .error e => .error e
  | .ok pts =>
    let b := pts.foldl bounds_update bounds_init
    if b.minx > 100000000000000000 then
      .error "Bounds failed: polyset appears empty."
    else
      .ok b

/-- One loop of `polyset_to_svg_paths`: `None` for a degenerate loop with
fewer than 3 points, otherwise the `" ".join` of `M x,y`, the `L x,y` tokens
and the closing `Z`, all coordinates in `%.4f` format. -/
def loop_to_path (dx dy : ℚ) (chain : Chain) : Option String :=
  let pts := chain_to_points_mm chain dx dy
  if pts.length < 3 then none
  else
    match pts with
    | [] => none
    | p :: rest =>
      some (py_join " "
        (("M " ++ fmt4 p.1 ++ "," ++ fmt4 p.2) ::
          (rest.map (fun q => "L " ++ fmt4 q.1 ++ "," ++ fmt4 q.2) ++ ["Z"])))

/-- `polyset_to_svg_paths`: one path string per retained loop, in loop order. -/
def polyset_to_svg_paths (ps : PolySet) (dx dy : ℚ) : Except String (List String) :=
  (iter_polyset_loops ps).map (fun chains => chains.filterMap (loop_to_path dx dy))

/-- Pads fallback test `pad.GetLayerSet().Contains(lid)`; a second exception
yields `False`. -/
def pad_layerset_check (pad : Item) (lid : Int) : Bool :=
  match pad.layerSetContainsFn lid with
  | some b => b
  | none => false

/-- The pads-loop layer test of `main`: `pad.IsOnLayer(lid)` (an absent
attribute raises when called), falling back to the layer-set test. -/
def pad_on_layer (pad : Item) (lid : Int) : Bool :=
  match pad.isOnLayerFn with
  | some f =>
    match f lid with
    | some b => b
    | none => pad_layerset_check pad lid
  | none => pad_layerset_check pad lid

/-- The zones-loop layer test of `main`: `z.GetLayer() != lid` skips the zone,
and an exception in `GetLayer` also skips it (`continue`). -/
def zone_on_layer (z : Item) (lid : Int) : Bool :=
  match z.getLayerFn with
  | some (some l) => l == lid
  | some none => false
  | none => false

/-- The tracks and drawings loops of `main` (both have the same body): filter
by `item_on_layer`, convert, boolean-add, count.  The whole loop sits inside
`try: ... except Exception: pass`, so a raised exception from
`poly_boolean_add` stops the loop with the accumulator state kept as it was at
that moment; the Boolean in the result records whether that happened. -/
def process_generic (host : Host) (lid me : Int) :
    List Item → PolySet × Nat → (PolySet × Nat) × Bool
  | [], st => (st, false)
  | t :: rest, st =>
    if item_on_layer t lid then
      match transform_to_polyset t me with
      | some ps =>
        match poly_boolean_add host st.1 ps with
        | .ok c2 => process_generic host lid me rest (c2, st.2 + 1)
        | .error _ => (st, true)
      | none => process_generic host lid me rest st
    else
      process_generic host lid me rest st

/-- The pads loop of `main`: same body with the pad-specific layer test, but
with no surrounding `try`, so an exception from `poly_boolean_add`
propagates out of `main`. -/
def process_pads (host : Host) (lid me : Int) :
    List Item → PolySet × Nat → Except String (PolySet × Nat)
  | [], st => .ok st
  | p :: rest, st =>
    if pad_on_layer p lid then
      match transform_to_polyset p me with
      | some ps =>
        match poly_boolean_add host st.1 ps with
        | .ok c2 => process_pads host lid me rest (c2, st.2 + 1)
        | .error e => .error e
      | none => process_pads host lid me rest st
    else
      process_pads host lid me rest st

/-- The zones loop of `main` (entered only when `INCLUDE_ZONES`): like the
generic loop but with the zone layer test and `zone_to_polyset`, inside its
own `try: ... except Exception: pass`. -/
def process_zones (host : Host) (lid me : Int) :
    List Item → PolySet × Nat → (PolySet × Nat) × Bool
  | [], st => (st, false)
  | z :: rest, st =>
    if zone_on_layer z lid then
      match zone_to_polyset z me with
      | some zps =>
        match poly_boolean_add host st.1 zps with
        | .ok c2 => process_zones host lid me rest (c2, st.2 + 1)
        | .error _ => (st, true)
      | none => process_zones host lid me rest st
    else
      process_zones host lid me rest st

/-- The four accumulation phases of `main` in order: tracks, drawings
(each swallowing a block-level exception), pads (propagating), zones
(swallowing, and only when configured). -/
def collect_items (host : Host) (board : Board) (cfg : Config) (lid me : Int) :
    Except String (PolySet × Nat) :=
  let st1 := (process_generic host lid me board.tracks (empty_polyset, 0)).1
  let st2 := (process_generic host lid me board.drawings st1).1
  match process_pads host lid me (board.footprints.flatMap Footprint.pads) st2 with
  | .error e => .error e
  | .ok st3 =>
    .ok (if cfg.include_zones then (process_zones host lid me board.zones st3).1 else st3)

/-- The SVG document assembly of `main`: XML declaration, `svg` root with
`%.4f` millimetre width/height and matching viewBox, one group with the fill
colour and the even-odd rule, one indented `path` element per path string,
closing tags; lines joined by newlines. -/
def build_svg (fill_color : String) (width height : ℚ) (paths : List String) : String :=
  py_join "\n"
    (["<?xml version=\"1.0\" encoding=\"UTF-8\" standalone=\"no\"?>",
      "<svg xmlns=\"http://www.w3.org/2000/svg\" width=\"" ++ fmt4 width
        ++ "mm\" height=\"" ++ fmt4 height ++ "mm\" viewBox=\"0 0 "
        ++ fmt4 width ++ " " ++ fmt4 height ++ "\">",
      "<g fill=\"" ++ fill_color ++ "\" stroke=\"none\" fill-rule=\"evenodd\">"]
     ++ paths.map (fun d => "  <path d=\"" ++ d ++ "\"/>")
     ++ ["</g></svg>"])

/-- Embedding of the `main` function of the script (the name `main` is reserved in Lean): the whole pipeline.  `board?` is `pcbnew.GetBoard()` (falsy when no
board is loaded).  A successful run returns the output path and the complete
file text; every fatal condition returns the error instead, with no file
produced. -/
def script_main (host : Host) (board? : Option Board) (cfg : Config) : Except String MainResult :=
  match board? with
  | none => .error "No board loaded. Open a .kicad_pcb in PCB Editor first."
  | some board =>
    match get_layer_id host board cfg.layer_name with
    | .error e => .error e
    | .ok lid =>
      let me := iu_from_mm cfg.max_error_mm
      match collect_items host board cfg lid me with
      | .error e => .error e
      | .ok (combined, added) =>
        if added = 0 then
          .error ("Nothing exported on " ++ cfg.layer_name
            ++ ". Double-check LAYER_NAME and that copper exists on that layer.")
        else
          match polyset_bounds_mm combined with
          | .error e => .error e
          | .ok b =>
            let minx := b.minx - cfg.margin_mm
            let miny := b.miny - cfg.margin_mm
            let maxx := b.maxx + cfg.margin_mm
            let maxy := b.maxy + cfg.margin_mm
            let width := maxx - minx
            let height := maxy - miny
            let dx := -minx
            let dy := -miny
            match polyset_to_svg_paths combined dx dy with
            | .error e => .error e
            | .ok paths =>
              let content := build_svg cfg.fill_color width height paths
              if board.fileName = "" then
                .error "Board has no filename. Save the PCB first."
              else
                .ok { out_path := splitext_root board.fileName ++ "_"
                        ++ py_replace cfg.layer_name '.' '_' ++ cfg.out_suffix,
                      content := content }

/-! ## Helper lemmas -/

/-- Merging a contiguous space with an `L ` token, as `" ".join` produces it. -/
theorem space_append_L (x : String) : " " ++ ("L " ++ x) = " L " ++ x := by
  rw [← String.append_assoc]; rfl

/-- Merging a contiguous space with the closing `Z` token. -/
theorem space_append_Z : (" " : String) ++ "Z" = " Z" := rfl

/-- Tokens of the serializer after the initial move command, as the spec words
them: one ` L x,y` per subsequent point, then ` Z`. -/
def spec_path_tail : List (ℚ × ℚ) → String
  | [] => " Z"
  | q :: rest => " L " ++ fmt4 q.1 ++ "," ++ fmt4 q.2 ++ spec_path_tail rest

/-- The path format stated by the spec for one retained loop: `M x,y` for the
first point, ` L x,y` for each subsequent point, and a closing ` Z`, every
coordinate at fixed 4-decimal precision. -/
def spec_path_of_loop : List (ℚ × ℚ) → String
  | [] => "Z"
  | p :: rest => "M " ++ fmt4 p.1 ++ "," ++ fmt4 p.2 ++ spec_path_tail rest

/-- The `" ".join` of the source's token list equals the spec-side
concatenation format. -/
theorem py_join_spec_tail (l : List (ℚ × ℚ)) : ∀ a : String,
    py_join " " (a :: (l.map (fun q => "L " ++ fmt4 q.1 ++ "," ++ fmt4 q.2) ++ ["Z"]))
      = a ++ spec_path_tail l := by
  induction l with
  | nil =>
    intro a
    simp only [List.map_nil, List.nil_append, py_join, spec_path_tail,
      String.append_assoc, space_append_Z]
  | cons q t ih =>
    intro a
    simp only [List.map_cons, List.cons_append, py_join, List.append_eq]
    rw [ih]
    simp only [spec_path_tail, String.append_assoc, space_append_L]

/-- `filterMap` distributes over `flatMap`. -/
theorem filterMap_flatMap_embed {α β γ : Type} (l : List α) (g : α → List β)
    (f : β → Option γ) :
    (l.flatMap g).filterMap f = l.flatMap (fun a => (g a).filterMap f) := by
  induction l with
  | nil => rfl
  | cons a t ih => simp [List.flatMap_cons, List.filterMap_append, ih]

/-- Serializing a list of loops is mapping the spec-side format over the loops
that keep at least three points. -/
theorem filterMap_loop_to_path (dx dy : ℚ) (chains : List Chain) :
    chains.filterMap (loop_to_path dx dy) =
      (chains.filter (fun c => decide (3 ≤ (chain_to_points_mm c dx dy).length))).map
        (fun c => spec_path_of_loop (chain_to_points_mm c dx dy)) := by
  induction chains with
  | nil => rfl
  | cons c t ih =>
    by_cases h3 : (chain_to_points_mm c dx dy).length < 3
    · have hfil : decide (3 ≤ (chain_to_points_mm c dx dy).length) = false := by
        simpa [Nat.not_le] using h3
      have hpath : loop_to_path dx dy c = none := by
        simp [loop_to_path, h3]
      simp [List.filterMap_cons, List.filter_cons, hpath, hfil, ih]
    · have hge : 3 ≤ (chain_to_points_mm c dx dy).length := Nat.not_lt.mp h3
      obtain ⟨p, rest, hpr⟩ : ∃ p rest, chain_to_points_mm c dx dy = p :: rest := by
        cases hpts : chain_to_points_mm c dx dy with
        | nil => rw [hpts] at hge; simp at hge
        | cons p rest => exact ⟨p, rest, rfl⟩
      have hpath : loop_to_path dx dy c
          = some (spec_path_of_loop (chain_to_points_mm c dx dy)) := by
        simp only [loop_to_path, hpr]
        rw [if_neg (hpr ▸ h3)]
        rw [py_join_spec_tail rest ("M " ++ fmt4 p.1 ++ "," ++ fmt4 p.2)]
        simp [spec_path_of_loop, String.append_assoc]
      have hfil : decide (3 ≤ (chain_to_points_mm c dx dy).length) = true := by
        simpa using hge
      simp [List.filterMap_cons, List.filter_cons, hpath, hfil, ih]

/-- One bounds step never raises the minima nor lowers the maxima. -/
theorem bounds_update_le (b : Bounds) (p : ℚ × ℚ) :
    (bounds_update b p).minx ≤ b.minx ∧ (bounds_update b p).miny ≤ b.miny ∧
    b.maxx ≤ (bounds_update b p).maxx ∧ b.maxy ≤ (bounds_update b p).maxy := by
  unfold bounds_update
  refine ⟨?_, ?_, ?_, ?_⟩ <;> dsimp only <;> split
  · exact le_of_lt (by assumption)
  · exact le_refl _
  · exact le_of_lt (by assumption)
  · exact le_refl _
  · exact le_of_lt (by assumption)
  · exact le_refl _
  · exact le_of_lt (by assumption)
  · exact le_refl _

/-- One bounds step brackets the point it consumed. -/
theorem bounds_update_point (b : Bounds) (p : ℚ × ℚ) :
    (bounds_update b p).minx ≤ p.1 ∧ (bounds_update b p).miny ≤ p.2 ∧
    p.1 ≤ (bounds_update b p).maxx ∧ p.2 ≤ (bounds_update b p).maxy := by
  unfold bounds_update
  refine ⟨?_, ?_, ?_, ?_⟩ <;> dsimp only <;> split
  · exact le_refl _
  · exact le_of_not_lt (by assumption)
  · exact le_refl _
  · exact le_of_not_lt (by assumption)
  · exact le_refl _
  · exact le_of_not_lt (by assumption)
  · exact le_refl _
  · exact le_of_not_lt (by assumption)

/-- The whole bounds scan never raises the minima nor lowers the maxima. -/
theorem bounds_foldl_mono (pts : List (ℚ × ℚ)) : ∀ acc : Bounds,
    (pts.foldl bounds_update acc).minx ≤ acc.minx ∧
    (pts.foldl bounds_update acc).miny ≤ acc.miny ∧
    acc.maxx ≤ (pts.foldl bounds_update acc).maxx ∧
    acc.maxy ≤ (pts.foldl bounds_update acc).maxy := by
  induction pts with
  | nil => intro acc; simp
  | cons p t ih =>
    intro acc
    have h1 := bounds_update_le acc p
    have h2 := ih (bounds_update acc p)
    simp only [List.foldl_cons]
    exact ⟨h2.1.trans h1.1, h2.2.1.trans h1.2.1,
      h1.2.2.1.trans h2.2.2.1, h1.2.2.2.trans h2.2.2.2⟩

/-- The bounds scan brackets every point of the list. -/
theorem bounds_foldl_mem (pts : List (ℚ × ℚ)) : ∀ (acc : Bounds), ∀ p ∈ pts,
    (pts.foldl bounds_update acc).minx ≤ p.1 ∧
    (pts.foldl bounds_update acc).miny ≤ p.2 ∧
    p.1 ≤ (pts.foldl bounds_update acc).maxx ∧
    p.2 ≤ (pts.foldl bounds_update acc).maxy := by
  induction pts with
  | nil => intro acc p hp; cases hp
  | cons q t ih =>
    intro acc p hp
    simp only [List.foldl_cons]
    rcases List.mem_cons.mp hp with rfl | hp
    · have h1 := bounds_update_point acc p
      have h2 := bounds_foldl_mono t (bounds_update acc p)
      exact ⟨h2.1.trans h1.1, h2.2.1.trans h1.2.1,
        h1.2.2.1.trans h2.2.2.1, h1.2.2.2.trans h2.2.2.2⟩
    · exact ih (bounds_update acc q) p hp

/-- A successful bounds computation is exactly the scan over the flattened
point list. -/
theorem polyset_bounds_eq (ps : PolySet) (pts : List (ℚ × ℚ)) (b : Bounds)
    (hpts : polyset_points_mm ps = .ok pts)
    (hb : polyset_bounds_mm ps = .ok b) :
    b = pts.foldl bounds_update bounds_init := by
  have hred : polyset_bounds_mm ps =
      (if (pts.foldl bounds_update bounds_init).minx > 100000000000000000 then
        Except.error "Bounds failed: polyset appears empty."
      else Except.ok (pts.foldl bounds_update bounds_init)) := by
    unfold polyset_bounds_mm
    rw [hpts]
  rw [hred] at hb
  by_cases hc : (pts.foldl bounds_update bounds_init).minx > 100000000000000000
  · rw [if_pos hc] at hb; cases hb
  · rw [if_neg hc] at hb; cases hb; rfl

/-- Shifting during conversion is a translation of the unshifted points. -/
theorem chain_points_shift (chain : Chain) (dx dy : ℚ) :
    chain_to_points_mm chain dx dy =
      (chain_to_points_mm chain 0 0).map (fun q => (q.1 + dx, q.2 + dy)) := by
  unfold chain_to_points_mm
  cases chain.indexed <;> simp [List.map_map, Function.comp_def]

/-- `find?` returns the head of the first satisfying suffix. -/
theorem find?_append_first {α : Type} (p : α → Bool) (l1 : List α) (a : α) (l2 : List α)
    (h1 : ∀ b ∈ l1, p b = false) (ha : p a = true) :
    (l1 ++ a :: l2).find? p = some a := by
  induction l1 with
  | nil => simp [List.find?_cons_of_pos, ha]
  | cons x t ih =>
    have hx : p x = false := h1 x (List.mem_cons_self x t)
    rw [List.cons_append, List.find?_cons_of_neg _ (by simp [hx])]
    exact ih (fun b hb => h1 b (List.mem_cons_of_mem x hb))

/-- Decomposing `range n` around an interior index. -/
theorem range_split (n j : Nat) (hj : j < n) :
    List.range n = List.range j ++ j ::
      ((List.range (n - j - 1)).map (fun x => j + Nat.succ x)) := by
  have e1 : n = j + (n - j) := (Nat.add_sub_cancel' (le_of_lt hj)).symm
  have e2 : n - j = (n - j - 1) + 1 := (Nat.succ_pred_eq_of_pos (Nat.sub_pos_of_lt hj)).symm
  calc List.range n = List.range (j + (n - j)) := by rw [← e1]
    _ = List.range j ++ (List.range (n - j)).map (fun x => j + x) := List.range_add j (n - j)
    _ = List.range j ++ (List.range ((n - j - 1) + 1)).map (fun x => j + x) := by rw [← e2]
    _ = _ := by
      rw [List.range_succ_eq_map]
      simp [List.map_map, Function.comp_def]

/-! ## Concrete host instances used by witnesses and counterexamples -/

/-- A 1 mm right triangle, exposed through the indexed point API. -/
def triChain : Chain :=
  { indexed := some [⟨0, 0⟩, ⟨1000000, 0⟩, ⟨0, 1000000⟩], iterPts := [] }

/-- A polygon set holding just the triangle. -/
def triPS : PolySet :=
  { hasPolygonAPI := true, hasHoleAPI := true, polygons := [(triChain, [])],
    hasOutlineAPI := true, outlines := [triChain] }

/-- A polygon set marked so that the demo union method raises on it. -/
def brokenPS : PolySet :=
  { hasPolygonAPI := false, hasHoleAPI := false, polygons := [],
    hasOutlineAPI := false, outlines := [] }

/-- The demo union method: appends the source polygons into the accumulator,
except that it raises on the marked polygon set. -/
def demo_union (dst src : PolySet) : Option PolySet :=
  if src = brokenPS then none
  else some { dst with polygons := dst.polygons ++ src.polygons }

/-- A demo host with a full layer table and a working boolean-add method. -/
def demoHost : Host :=
  { layerIdCount := 64, hasUnionMethod := true, union := demo_union }

/-- An item that reports itself on every layer and converts (via the first
signature) to the given polygon set. -/
def itemConvertingTo (ps : PolySet) : Item :=
  { isOnLayerFn := some (fun _ => some true), getLayerFn := none, getClassFn := none,
    layerSetContainsFn := fun _ => some true,
    transformFn1 := fun _ => some ps,
    transformFn2 := fun _ => none, transformFn3 := fun _ => none,
    solidAreasFn1 := none, solidAreasFn2 := none }

/-- A saved demo board with a single track that converts to the triangle. -/
def demoBoard : Board :=
  { getLayerIDFn := fun n => if n = "F.Cu" then some 0 else none,
    getLayerNameFn := fun _ => "",
    tracks := [itemConvertingTo triPS], drawings := [], footprints := [], zones := [],
    fileName := "board.kicad_pcb" }

/-- The accumulator after the demo track is united into the fresh set. -/
def demoMerged : PolySet :=
  { hasPolygonAPI := true, hasHoleAPI := true, polygons := [(triChain, [])],
    hasOutlineAPI := true, outlines := [] }

/-- The path element the demo board serializes to. -/
def demoPath : String := "M 1.0000,1.0000 L 2.0000,1.0000 L 1.0000,2.0000 Z"

/-- The output of a successful demo run. -/
def demoResult : MainResult :=
  { out_path := "board_F_Cu_laser.svg",
    content := build_svg "#000000" 3 3 [demoPath] }

/-- A saved board whose two pads convert fine, but the union method raises on
the first pad's polygons. -/
def padBoard : Board :=
  { getLayerIDFn := fun _ => some 0, getLayerNameFn := fun _ => "",
    tracks := [], drawings := [],
    footprints := [⟨[itemConvertingTo brokenPS, itemConvertingTo triPS]⟩],
    zones := [], fileName := "board.kicad_pcb" }

/-- A saved board with no items at all. -/
def emptyBoard : Board :=
  { getLayerIDFn := fun _ => some 0, getLayerNameFn := fun _ => "",
    tracks := [], drawings := [], footprints := [], zones := [],
    fileName := "board.kicad_pcb" }

/-- A board on which every layer lookup fails. -/
def noLayerBoard : Board :=
  { getLayerIDFn := fun _ => none, getLayerNameFn := fun _ => "",
    tracks := [], drawings := [], footprints := [], zones := [],
    fileName := "board.kicad_pcb" }

/-! ## Evaluation lemmas for the demo run -/

/-- Four-decimal format of 1. -/
theorem fmt4_one : fmt4 1 = "1.0000" := by
  unfold fmt4
  rw [show round ((1 : ℚ) * 10000) = 10000 by norm_num [round_eq]]
  rfl

/-- Four-decimal format of 2. -/
theorem fmt4_two : fmt4 2 = "2.0000" := by
  unfold fmt4
  rw [show round ((2 : ℚ) * 10000) = 20000 by norm_num [round_eq]]
  rfl

/-- Four-decimal format of 3. -/
theorem fmt4_three : fmt4 3 = "3.0000" := by
  unfold fmt4
  rw [show round ((3 : ℚ) * 10000) = 30000 by norm_num [round_eq]]
  rfl

/-- The demo collection phase: the single track is united, one item added.
The max-error argument is irrelevant because the demo conversion ignores it. -/
theorem demo_collect (me : Int) :
    collect_items demoHost demoBoard default_config 0 me = .ok (demoMerged, 1) := rfl

/-- The unshifted millimetre points of the demo accumulator. -/
theorem demo_points : polyset_points_mm demoMerged =
    .ok [((0 : ℚ), (0 : ℚ)), (1, 0), (0, 1)] := by
  norm_num [polyset_points_mm, iter_polyset_loops, demoMerged, triChain,
    chain_to_points_mm, mm_from_iu, Except.map]

/-- The bounds of the demo accumulator. -/
theorem demo_bounds : polyset_bounds_mm demoMerged = .ok ⟨0, 0, 1, 1⟩ := by
  have h := demo_points
  unfold polyset_bounds_mm
  rw [h]
  norm_num [bounds_update, bounds_init]

/-- The demo triangle shifted by the translation the demo run computes. -/
theorem demo_shifted : chain_to_points_mm triChain 1 1 =
    [((1 : ℚ), (1 : ℚ)), (2, 1), (1, 2)] := by
  norm_num [chain_to_points_mm, triChain, mm_from_iu]

/-- The single demo loop serializes to the demo path string. -/
theorem demo_loop_path : loop_to_path 1 1 triChain = some demoPath := by
  simp only [loop_to_path, demo_shifted]
  norm_num [fmt4_one, fmt4_two]
  rfl

/-- The serialized path list of the demo run. -/
theorem demo_paths : polyset_to_svg_paths demoMerged 1 1 = .ok [demoPath] := by
  have hl : iter_polyset_loops demoMerged = .ok [triChain] := rfl
  simp only [polyset_to_svg_paths, hl, Except.map, List.filterMap_cons, demo_loop_path,
    List.filterMap_nil]

/-- The demo run succeeds end to end and produces the demo result. -/
theorem demo_main_eq :
    script_main demoHost (some demoBoard) default_config = .ok demoResult := by
  have hname : default_config.layer_name = "F.Cu" := rfl
  have hL : get_layer_id demoHost demoBoard "F.Cu" = .ok 0 := rfl
  have hmarg : default_config.margin_mm = 1 := rfl
  have hfill : default_config.fill_color = "#000000" := rfl
  have hsuff : default_config.out_suffix = "_laser.svg" := rfl
  simp only [script_main, hname, hL, demo_collect, demo_bounds, hmarg, hfill, hsuff]
  norm_num [demo_paths, demoResult]
  rfl

/-! ## Claims -/

/-- The first layer probe produced no answer: the `IsOnLayer` attribute is
absent, or calling it raised. -/
def isOnLayer_no_answer (item : Item) (lid : Int) : Prop :=
  item.isOnLayerFn = none ∨ ∃ f, item.isOnLayerFn = some f ∧ f lid = none

/-- The second layer probe produced no answer: the `GetLayer` attribute is
absent, or calling it raised. -/
def getLayer_no_answer (item : Item) : Prop :=
  item.getLayerFn = none ∨ item.getLayerFn = some none

/-- Claim C7: the item-on-layer predicate applies its probes in priority
order: a direct `IsOnLayer` answer is returned as is; otherwise membership is
the `GetLayer` attribute comparing equal to the target id; otherwise a
via-like item (class name containing `VIA` after upper-casing) yields `true`;
in all remaining cases the predicate returns `false`. -/
theorem claim_C7_item_on_layer_priority (item : Item) (lid : Int) :
    (∀ f b, item.isOnLayerFn = some f → f lid = some b → item_on_layer item lid = b)
  ∧ (isOnLayer_no_answer item lid → ∀ l, item.getLayerFn = some (some l) →
      item_on_layer item lid = (l == lid))
  ∧ (isOnLayer_no_answer item lid → getLayer_no_answer item →
      via_check item = true → item_on_layer item lid = true)
  ∧ (isOnLayer_no_answer item lid → getLayer_no_answer item →
      via_check item = false → item_on_layer item lid = false) := by
  refine ⟨?_, ?_, ?_, ?_⟩
  · intro f b hf hb
    simp [item_on_layer, hf, hb]
  · intro h l hl
    rcases h with h | ⟨f, hf, hfl⟩
    · simp [item_on_layer, h, layer_attr_check, hl]
    · simp [item_on_layer, hf, hfl, layer_attr_check, hl]
  · intro h h2 hv
    rcases h with h | ⟨f, hf, hfl⟩
    · rcases h2 with h2 | h2 <;> simp [item_on_layer, h, layer_attr_check, h2, hv]
    · rcases h2 with h2 | h2 <;> simp [item_on_layer, hf, hfl, layer_attr_check, h2, hv]
  · intro h h2 hv
    rcases h with h | ⟨f, hf, hfl⟩
    · rcases h2 with h2 | h2 <;> simp [item_on_layer, h, layer_attr_check, h2, hv]
    · rcases h2 with h2 | h2 <;> simp [item_on_layer, hf, hfl, layer_attr_check, h2, hv]
/-- Witness for C7 at a concrete item whose direct probe answers. -/
theorem claim_C7_witness : item_on_layer (itemConvertingTo triPS) 5 = true :=
  (claim_C7_item_on_layer_priority (itemConvertingTo triPS) 5).1
    (fun _ => some true) true rfl rfl

/-- Claim C9: through the polygon-aware path, loops come out grouped by
polygon in index order, each outer outline immediately before its own holes in
hole-index order, and the serialized paths keep exactly that grouping, so an
outer loop's path precedes the paths of its own holes. -/
theorem claim_C9_loop_grouping (ps : PolySet) (dx dy : ℚ)
    (h1 : ps.hasPolygonAPI = true) (h2 : ps.hasHoleAPI = true) :
    iter_polyset_loops ps = .ok (ps.polygons.flatMap (fun pg => pg.1 :: pg.2))
  ∧ polyset_to_svg_paths ps dx dy = .ok
      (ps.polygons.flatMap (fun pg => (pg.1 :: pg.2).filterMap (loop_to_path dx dy))) := by
  have hiter : iter_polyset_loops ps = .ok (ps.polygons.flatMap (fun pg => pg.1 :: pg.2)) := by
    simp [iter_polyset_loops, h1, h2]
  refine ⟨hiter, ?_⟩
  simp only [polyset_to_svg_paths, hiter, Except.map]
  rw [filterMap_flatMap_embed]
/-- Witness for C9 at a concrete polygon set with one hole. -/
theorem claim_C9_witness :
    iter_polyset_loops triPS = .ok (triPS.polygons.flatMap (fun pg => pg.1 :: pg.2))
  ∧ polyset_to_svg_paths triPS 0 0 = .ok
      (triPS.polygons.flatMap (fun pg => (pg.1 :: pg.2).filterMap (loop_to_path 0 0))) :=
  claim_C9_loop_grouping triPS 0 0 rfl rfl

/-- Claim C10: a chain that supports neither indexed access nor iteration
converts to the empty point list (no exception), the serializer drops it
through the fewer-than-3-points filter, and it contributes no point to the
list the bounds scan runs over. -/
theorem claim_C10_degenerate_chain (chain : Chain) (dx dy : ℚ)
    (h1 : chain.indexed = none) (h2 : chain.iterPts = [])
    (l1 l2 : List Chain) :
    chain_to_points_mm chain dx dy = []
  ∧ loop_to_path dx dy chain = none
  ∧ (l1 ++ chain :: l2).flatMap (fun c => chain_to_points_mm c 0 0)
      = (l1 ++ l2).flatMap (fun c => chain_to_points_mm c 0 0) := by
  have hpts : ∀ a b : ℚ, chain_to_points_mm chain a b = [] := by
    intro a b
    simp [chain_to_points_mm, h1, h2]
  refine ⟨hpts dx dy, ?_, ?_⟩
  · simp [loop_to_path, hpts]
  · simp [List.flatMap_append, List.flatMap_cons, hpts]
/-- Witness for C10 at the concrete unsupported chain. -/
theorem claim_C10_witness :
    chain_to_points_mm ⟨none, []⟩ 0 0 = []
  ∧ loop_to_path 0 0 ⟨none, []⟩ = none
  ∧ ([triChain] ++ ⟨none, []⟩ :: [triChain]).flatMap (fun c => chain_to_points_mm c 0 0)
      = ([triChain] ++ [triChain]).flatMap (fun c => chain_to_points_mm c 0 0) :=
  claim_C10_degenerate_chain ⟨none, []⟩ 0 0 rfl rfl [triChain] [triChain]

/-- Claim C6: the serializer emits exactly one path per loop with at least 3
points, drops shorter loops, and formats each retained loop as `M x,y`
followed by `L x,y` for each subsequent point and a closing `Z`, with all
coordinates at fixed 4-decimal precision. -/
theorem claim_C6_serializer_format (ps : PolySet) (dx dy : ℚ) (chains : List Chain)
    (h : iter_polyset_loops ps = .ok chains) :
    polyset_to_svg_paths ps dx dy = .ok
      ((chains.filter (fun c => decide (3 ≤ (chain_to_points_mm c dx dy).length))).map
        (fun c => spec_path_of_loop (chain_to_points_mm c dx dy))) := by
  simp only [polyset_to_svg_paths, h, Except.map]
  rw [filterMap_loop_to_path]
/-- Witness for C6 at a concrete polygon set holding one real loop and one
degenerate loop. -/
theorem claim_C6_witness :
    polyset_to_svg_paths
        { hasPolygonAPI := true, hasHoleAPI := true,
          polygons := [(triChain, [⟨none, []⟩])],
          hasOutlineAPI := true, outlines := [] } 0 0 = .ok
      ((([triChain, ⟨none, []⟩] :
          List Chain).filter (fun c => decide (3 ≤ (chain_to_points_mm c 0 0).length))).map
        (fun c => spec_path_of_loop (chain_to_points_mm c 0 0))) :=
  claim_C6_serializer_format _ 0 0 [triChain, ⟨none, []⟩] rfl

/-- An on-layer item whose three conversion signatures all raise, so the
converter returns no result for it. -/
def failConvItem : Item :=
  { isOnLayerFn := some (fun _ => some true), getLayerFn := none, getClassFn := none,
    layerSetContainsFn := fun _ => some true,
    transformFn1 := fun _ => none, transformFn2 := fun _ => none,
    transformFn3 := fun _ => none,
    solidAreasFn1 := none, solidAreasFn2 := none }

/-- Claim C1 (amended): a per-item conversion failure is swallowed inside the
converter and only skips that item: the phase continues on the remaining
items, whatever they are, exactly as if the failed item were absent (first
three conjuncts, one per loop body).  A raised union step, however, is not
caught per item: in the tracks/drawings/zones phases it stops the remaining
items of that kind (state kept, exception swallowed at block level), and in
the pads phase it propagates and aborts the export (last three conjuncts). -/
theorem claim_C1_amended (host : Host) (lid me : Int) (t : Item)
    (rest : List Item) (st : PolySet × Nat) (ps : PolySet) (e : String) :
    (item_on_layer t lid = true → transform_to_polyset t me = none →
       process_generic host lid me (t :: rest) st = process_generic host lid me rest st)
  ∧ (pad_on_layer t lid = true → transform_to_polyset t me = none →
       process_pads host lid me (t :: rest) st = process_pads host lid me rest st)
  ∧ (zone_on_layer t lid = true → zone_to_polyset t me = none →
       process_zones host lid me (t :: rest) st = process_zones host lid me rest st)
  ∧ (item_on_layer t lid = true → transform_to_polyset t me = some ps →
       poly_boolean_add host st.1 ps = .error e →
       process_generic host lid me (t :: rest) st = (st, true))
  ∧ (pad_on_layer t lid = true → transform_to_polyset t me = some ps →
       poly_boolean_add host st.1 ps = .error e →
       process_pads host lid me (t :: rest) st = .error e)
  ∧ (zone_on_layer t lid = true → zone_to_polyset t me = some ps →
       poly_boolean_add host st.1 ps = .error e →
       process_zones host lid me (t :: rest) st = (st, true)) := by
  refine ⟨?_, ?_, ?_, ?_, ?_, ?_⟩
  · intro h1 h2
    simp [process_generic, h1, h2]
  · intro h1 h2
    simp [process_pads, h1, h2]
  · intro h1 h2
    simp [process_zones, h1, h2]
  · intro h1 h2 h3
    simp [process_generic, h1, h2, h3]
  · intro h1 h2 h3
    simp [process_pads, h1, h2, h3]
  · intro h1 h2 h3
    simp [process_zones, h1, h2, h3]
/-- Witness for the amended C1 on mixed concrete lists: a conversion failure
only skips its item and the phase continues onto the convertible second item,
while a union failure stops the phase before the second item, keeping state. -/
theorem claim_C1_witness :
    (process_generic demoHost 0 0 (failConvItem :: [itemConvertingTo triPS])
        (empty_polyset, 0)
      = process_generic demoHost 0 0 [itemConvertingTo triPS] (empty_polyset, 0))
  ∧ process_generic demoHost 0 0 (itemConvertingTo brokenPS :: [itemConvertingTo triPS])
      (empty_polyset, 0) = ((empty_polyset, 0), true) :=
  ⟨(claim_C1_amended demoHost 0 0 failConvItem [itemConvertingTo triPS]
      (empty_polyset, 0) brokenPS "boolean-add method raised").1 rfl rfl,
   (claim_C1_amended demoHost 0 0 (itemConvertingTo brokenPS) [itemConvertingTo triPS]
      (empty_polyset, 0) brokenPS "boolean-add method raised").2.2.2.1 rfl rfl rfl⟩
/-- Counterexample to C1 as stated: on a board whose first pad's union step
raises, the whole export aborts with that exception, although the second pad
is on the layer, converts fine, and alone would be united and counted. -/
theorem claim_C1_counterexample :
    script_main demoHost (some padBoard) default_config = .error "boolean-add method raised"
  ∧ pad_on_layer (itemConvertingTo triPS) 0 = true
  ∧ transform_to_polyset (itemConvertingTo triPS) (iu_from_mm default_config.max_error_mm)
      = some triPS
  ∧ process_pads demoHost 0 (iu_from_mm default_config.max_error_mm)
      [itemConvertingTo triPS] (empty_polyset, 0) = .ok (demoMerged, 1) :=
  ⟨rfl, rfl, rfl, rfl⟩

/-- Claim C2: the layer resolver takes the direct lookup's answer when it
gives one; after a failed direct lookup it returns the first slot of the
linear scan whose name matches; and when no slot matches, the run fails
with the layer-not-found error before any output is produced. -/
theorem claim_C2_layer_resolver (host : Host) (board : Board) (cfg : Config)
    (lid : Int) (j : Nat) :
    (board.getLayerIDFn cfg.layer_name = some lid →
       get_layer_id host board cfg.layer_name = .ok lid)
  ∧ (board.getLayerIDFn cfg.layer_name = none → j < host.layerIdCount →
       board.getLayerNameFn j = cfg.layer_name →
       (∀ i, i < j → board.getLayerNameFn i ≠ cfg.layer_name) →
       get_layer_id host board cfg.layer_name = .ok (Int.ofNat j))
  ∧ (board.getLayerIDFn cfg.layer_name = none →
       (∀ i, i < host.layerIdCount → board.getLayerNameFn i ≠ cfg.layer_name) →
       script_main host (some board) cfg
         = .error ("Could not find layer '" ++ cfg.layer_name ++ "'")) := by
  refine ⟨?_, ?_, ?_⟩
  · intro h
    simp [get_layer_id, h]
  · intro h hj hname hmin
    have hfind : (List.range host.layerIdCount).find?
        (fun l => board.getLayerNameFn l == cfg.layer_name) = some j := by
      rw [range_split host.layerIdCount j hj]
      apply find?_append_first
      · intro b hb
        have hbj : b < j := List.mem_range.mp hb
        simpa using hmin b hbj
      · simpa using hname
    simp [get_layer_id, h, hfind]
  · intro h hnone
    have hfind : (List.range host.layerIdCount).find?
        (fun l => board.getLayerNameFn l == cfg.layer_name) = none := by
      rw [List.find?_eq_none]
      intro x hx
      simpa using hnone x (List.mem_range.mp hx)
    have hlayer : get_layer_id host board cfg.layer_name
        = .error ("Could not find layer '" ++ cfg.layer_name ++ "'") := by
      simp [get_layer_id, h, hfind]
    simp [script_main, hlayer]
/-- Witness for C2 at a concrete board on which every lookup fails. -/
theorem claim_C2_witness :
    script_main demoHost (some noLayerBoard) default_config
      = .error ("Could not find layer '" ++ default_config.layer_name ++ "'") :=
  (claim_C2_layer_resolver demoHost noLayerBoard default_config 0 0).2.2 rfl
    (fun i _ => by show ("" : String) ≠ "F.Cu"; decide)

/-- Claim C8: the pipeline is a function of the host, board state and
configuration alone, so two successful runs over the same unmodified inputs
return byte-identical file text (and the same output path). -/
theorem claim_C8_deterministic (host : Host) (board? : Option Board) (cfg : Config)
    (r1 r2 : MainResult)
    (h1 : script_main host board? cfg = .ok r1)
    (h2 : script_main host board? cfg = .ok r2) :
    r1.content = r2.content ∧ r1.out_path = r2.out_path := by
  have h := h1.symm.trans h2
  injection h with h
  rw [h]
  exact ⟨rfl, rfl⟩
/-- Witness for C8: the demo run, performed twice. -/
theorem claim_C8_witness :
    demoResult.content = demoResult.content ∧ demoResult.out_path = demoResult.out_path :=
  claim_C8_deterministic demoHost (some demoBoard) default_config demoResult demoResult
    demo_main_eq demo_main_eq

/-- Claim C3: when zero items contribute, the run raises the nothing-exported
error; a board without a saved file path never yields an output; and any
successful run's file text is one complete SVG document built by the document
assembler.  Every fatal condition is an `Except.error`, under which no output
path or file text exists at all. -/
theorem claim_C3_all_or_nothing (host : Host) (board : Board) (cfg : Config)
    (lid : Int) (c : PolySet) :
    (get_layer_id host board cfg.layer_name = .ok lid →
       collect_items host board cfg lid (iu_from_mm cfg.max_error_mm) = .ok (c, 0) →
       script_main host (some board) cfg = .error ("Nothing exported on " ++ cfg.layer_name
         ++ ". Double-check LAYER_NAME and that copper exists on that layer."))
  ∧ (board.fileName = "" → ∀ r, script_main host (some board) cfg ≠ .ok r)
  ∧ (∀ r, script_main host (some board) cfg = .ok r →
       ∃ w h paths, r.content = build_svg cfg.fill_color w h paths)
  ∧ (∀ a, get_layer_id host board cfg.layer_name = .ok lid →
       collect_items host board cfg lid (iu_from_mm cfg.max_error_mm) = .ok (c, a) →
       ¬ a = 0 →
       polyset_bounds_mm c = .error "Bounds failed: polyset appears empty." →
       script_main host (some board) cfg
         = .error "Bounds failed: polyset appears empty.") := by
  refine ⟨?_, ?_, ?_, ?_⟩
  · intro hL hC
    simp [script_main, hL, hC]
  · intro hfn r hok
    simp only [script_main] at hok
    split at hok
    · exact Except.noConfusion hok
    · split at hok
      · exact Except.noConfusion hok
      · split at hok
        · exact Except.noConfusion hok
        · split at hok
          · exact Except.noConfusion hok
          · split at hok
            · exact Except.noConfusion hok
            · simp [hfn] at hok
  · intro r hok
    simp only [script_main] at hok
    split at hok
    · exact Except.noConfusion hok
    · split at hok
      · exact Except.noConfusion hok
      · split at hok
        · exact Except.noConfusion hok
        · split at hok
          · exact Except.noConfusion hok
          · split at hok
            · exact Except.noConfusion hok
            · split at hok
              · exact Except.noConfusion hok
              · injection hok with hok
                exact ⟨_, _, _, by rw [← hok]⟩
  · intro a hL hC ha hB
    simp only [script_main, hL, hC] at *
    rw [if_neg ha]
    simp [hB]
/-- Witness for C3 at a concrete board with no items. -/
theorem claim_C3_witness :
    script_main demoHost (some emptyBoard) default_config
      = .error ("Nothing exported on " ++ default_config.layer_name
        ++ ". Double-check LAYER_NAME and that copper exists on that layer.") :=
  (claim_C3_all_or_nothing demoHost emptyBoard default_config 0 empty_polyset).1 rfl rfl

/-- Claim C4: on a non-empty export, every point of every loop of the
combined set lies inside the margin-expanded bounding box, and the width and
height written into the SVG document equal `maxx - minx` and `maxy - miny` of
that expanded box exactly. -/
theorem claim_C4_bounds_and_size (ps : PolySet) (b : Bounds) (margin : ℚ)
    (pts : List (ℚ × ℚ)) (p : ℚ × ℚ) (host : Host) (board : Board) (cfg : Config)
    (lid : Int) (a : Nat) (r : MainResult)
    (hm : 0 ≤ margin)
    (hpts : polyset_points_mm ps = .ok pts)
    (hb : polyset_bounds_mm ps = .ok b)
    (hp : p ∈ pts)
    (hmargin : cfg.margin_mm = margin)
    (hL : get_layer_id host board cfg.layer_name = .ok lid)
    (hC : collect_items host board cfg lid (iu_from_mm cfg.max_error_mm) = .ok (ps, a))
    (ha : ¬ a = 0)
    (hr : script_main host (some board) cfg = .ok r) :
    (b.minx - margin ≤ p.1 ∧ p.1 ≤ b.maxx + margin ∧
     b.miny - margin ≤ p.2 ∧ p.2 ≤ b.maxy + margin)
  ∧ ∃ paths, r.content = build_svg cfg.fill_color
      ((b.maxx + margin) - (b.minx - margin))
      ((b.maxy + margin) - (b.miny - margin)) paths := by
  constructor
  · have hbe := polyset_bounds_eq ps pts b hpts hb
    have h4 := bounds_foldl_mem pts bounds_init p hp
    rw [hbe]
    exact ⟨by linarith [h4.1], by linarith [h4.2.2.1],
      by linarith [h4.2.1], by linarith [h4.2.2.2]⟩
  · simp only [script_main, hL, hC, hb, hmargin] at hr
    rw [if_neg ha] at hr
    split at hr
    · exact Except.noConfusion hr
    · split at hr
      · exact Except.noConfusion hr
      · injection hr with hr
        exact ⟨_, by rw [← hr]⟩
/-- Witness for C4: the demo run, at the origin point of the triangle. -/
theorem claim_C4_witness :
    ((0 : ℚ) - 1 ≤ 0 ∧ (0 : ℚ) ≤ 1 + 1 ∧ (0 : ℚ) - 1 ≤ 0 ∧ (0 : ℚ) ≤ 1 + 1)
  ∧ ∃ paths, demoResult.content = build_svg default_config.fill_color
      ((1 + 1) - (0 - 1)) ((1 + 1) - (0 - 1)) paths :=
  claim_C4_bounds_and_size demoMerged ⟨0, 0, 1, 1⟩ 1
    [((0 : ℚ), (0 : ℚ)), (1, 0), (0, 1)] ((0 : ℚ), (0 : ℚ))
    demoHost demoBoard default_config 0 1 demoResult
    (by norm_num) demo_points demo_bounds (List.mem_cons_self _ _) rfl rfl
    (demo_collect _) (by decide) demo_main_eq

/-- Claim C5: after the margin is added on all sides, the translation
`(dx, dy) = (-minx, -miny)` used during serialization makes every emitted
coordinate non-negative. -/
theorem claim_C5_nonneg_coords (ps : PolySet) (b : Bounds) (margin : ℚ)
    (chains : List Chain) (chain : Chain) (p : ℚ × ℚ)
    (hm : 0 ≤ margin)
    (hb : polyset_bounds_mm ps = .ok b)
    (hch : iter_polyset_loops ps = .ok chains)
    (hc : chain ∈ chains)
    (hp : p ∈ chain_to_points_mm chain (-(b.minx - margin)) (-(b.miny - margin))) :
    0 ≤ p.1 ∧ 0 ≤ p.2 := by
  have hpts : polyset_points_mm ps
      = .ok (chains.flatMap (fun c => chain_to_points_mm c 0 0)) := by
    simp [polyset_points_mm, hch, Except.map]
  have hbe := polyset_bounds_eq ps _ b hpts hb
  rw [chain_points_shift] at hp
  obtain ⟨q, hq, rfl⟩ := List.mem_map.mp hp
  have hqmem : q ∈ chains.flatMap (fun c => chain_to_points_mm c 0 0) :=
    List.mem_flatMap.mpr ⟨chain, hc, hq⟩
  have h4 := bounds_foldl_mem _ bounds_init q hqmem
  have h1 : b.minx ≤ q.1 := by rw [hbe]; exact h4.1
  have h2 : b.miny ≤ q.2 := by rw [hbe]; exact h4.2.1
  constructor <;> dsimp only <;> linarith
/-- Witness for C5: the demo run, at the first emitted triangle point. -/
theorem claim_C5_witness :
    (0 : ℚ) ≤ ((1 : ℚ), (1 : ℚ)).1 ∧ (0 : ℚ) ≤ ((1 : ℚ), (1 : ℚ)).2 :=
  claim_C5_nonneg_coords demoMerged ⟨0, 0, 1, 1⟩ 1 [triChain] triChain ((1 : ℚ), (1 : ℚ))
    (by norm_num) demo_bounds rfl (List.mem_cons_self _ _)
    (by norm_num [chain_to_points_mm, triChain, mm_from_iu])
